import Mathlib

/-!
Verification development for the super-gametable orchestration layer.

The Rust sources are shallowly embedded as pure Lean functions.  Effectful
operations (AMQP publishes, task aborts, thread spawns, channel sends) are
recorded in explicit effect traces; external collaborators (the libmahjong
engine, the AMQP broker) are abstracted as oracle parameters giving the
outcome of each external call, exactly at the call sites the Rust code has.
-/

namespace SuperGametable

/-! ## controllers.rs -/

/-- Embedding of `GameController` (controllers.rs). -/
inductive GameController
  | Embedded (name : String)
  | External
  deriving DecidableEq, Repr

/-- Embedding of `GameController::to_string` (controllers.rs). -/
def GameController.toString : GameController → String
  | .Embedded name => name
  | .External => "External"

/-! ## External engine (libmahjong_rs), abstracted

The match engine is an external collaborator; only the parts of its
interface used by game.rs are modelled: the per-call outcome of
`GameState::advance`, `GameState::observe`, the `StateFunctionType`
terminal marker, and the FFI error type.  Engine states are opaque,
modelled as `Nat`. -/

/-- The state-function marker observed on a snapshot; only `GameEnd` is
distinguished by the wrapper, all other variants are collapsed. -/
inductive StateFunctionType
  | GameEnd
  | OtherState (n : Nat)
  deriving DecidableEq, Repr

/-- Snapshot returned by `GameState::observe`, exposing `current_state()`. -/
structure ObservedGameState where
  current_state : StateFunctionType
  deriving DecidableEq, Repr

/-- FFI error type of the engine; `GameEnded` and `GameStateConsumed` are the
variants game.rs branches on, all others are collapsed into `OtherError`. -/
inductive MahjongFFIError
  | GameEnded
  | GameStateConsumed
  | OtherError (msg : String)
  deriving DecidableEq, Repr

/-- Oracle for the engine's behaviour: the result of `GameState::advance` and
`GameState::observe` on each opaque engine state. -/
structure EngineModel where
  advance : Nat → Except MahjongFFIError Nat
  observe : Nat → Option ObservedGameState

/-! ## game.rs -/

/-- The `anyhow::Error` values `GameMatch` can produce, kept structured
(the Rust code renders them with `to_string`; the rendering is injective
on the cases that occur, so the model carries the value itself). -/
inductive GameError
  | ffi (e : MahjongFFIError)
  | advanceFinished
  | notFourControllers
  | engineInit (e : MahjongFFIError)
  deriving DecidableEq, Repr

/-- Embedding of `GameMatch` (game.rs): an optional opaque engine state plus
the match id. -/
structure GameMatch where
  state : Option Nat
  match_id : String
  deriving DecidableEq, Repr

/-- Embedding of `GameMatch::observe_state` (game.rs). -/
def GameMatch.observe_state (E : EngineModel) (g : GameMatch) : Option ObservedGameState :=
  g.state.bind E.observe

/-- Embedding of `GameMatch::try_new` (game.rs).  `GameState::new(settings)`
is external: its outcome is the oracle `initResult` (the random seed and the
settings record do not influence anything this development proves). -/
def GameMatch.try_new (initResult : Except MahjongFFIError Nat) (match_id : String)
    (controllers : List GameController) : Except GameError GameMatch :=
  let controller_strings := controllers.map GameController.toString
  if controller_strings.length = 4 then
    match initResult with
    | .ok s => .ok { state := some s, match_id := match_id }
    | .error e => .error (.engineInit e)
  else
    .error .notFourControllers

/-- Embedding of `GameMatch::advance` (game.rs).  Returns the `Result<bool>`
together with the mutated receiver (`self.state.take()` leaves `none` behind
unless a new state is stored). -/
def GameMatch.advance (E : EngineModel) (g : GameMatch) :
    Except GameError Bool × GameMatch :=
  match g.state with
  | some current_state =>
    match E.advance current_state with
    | .ok new_state =>
      let g2 : GameMatch := { g with state := some new_state }
      match g2.observe_state E with
      | none => (.error (.ffi .GameStateConsumed), g2)
      | some observed =>
        if observed.current_state = StateFunctionType.GameEnd then
          (.ok false, g2)
        else
          (.ok true, g2)
    | .error .GameEnded => (.ok false, { g with state := none })
    | .error e => (.error (.ffi e), { g with state := none })
  | none => (.error .advanceFinished, g)

/-! ## game_pool.rs -/

/-- Embedding of `GamePoolMessage` (game_pool.rs). -/
inductive GamePoolMessage
  | StartGame (match_id : String) (players : List String)
  | GameFinished (match_id : String)
  | GameComplete (match_id : String)
  | GameError (match_id : String) (error : String)
  | Shutdown
  deriving DecidableEq, Repr

/-- Embedding of `GameStatus` (game_pool.rs); the `Error` payload keeps the
structured error rather than its `to_string` rendering. -/
inductive GameStatus
  | Finished
  | Error (e : GameError)
  deriving DecidableEq, Repr

/-- The seat-controller construction inside `GamePool::start_game`
(game_pool.rs lines 126-134): four seats, supplied players first, the
default filler for missing seats. -/
def buildControllers (players : List String) : List GameController :=
  (List.range 4).map fun i =>
    GameController.Embedded ((players.get? i).getD "AngryDiscardoBot")

/-- One hex digit as serde_json renders it (lowercase). -/
def hexDigit (n : Nat) : Char :=
  if n < 10 then Char.ofNat (48 + n) else Char.ofNat (87 + n)

/-- serde_json's per-character string escaping. -/
def jsonEscapeChar (c : Char) : String :=
  if c = '"' then "\\\""
  else if c = '\\' then "\\\\"
  else if c = '\x08' then "\\b"
  else if c = '\x0c' then "\\f"
  else if c = '\n' then "\\n"
  else if c = '\r' then "\\r"
  else if c = '\t' then "\\t"
  else if c.toNat < 32 then
    "\\u00" ++ String.singleton (hexDigit (c.toNat / 16)) ++ String.singleton (hexDigit (c.toNat % 16))
  else String.singleton c

/-- serde_json's escaping of a whole string. -/
def jsonEscapeString (s : String) : String :=
  String.join (s.data.map jsonEscapeChar)

/-- Embedding of `GamePool::create_game_complete_message` (game_pool.rs):
the serde_json rendering of `json!({"match_id": match_id, "status":
"completed"})` (keys serialize in this order under serde_json's default
BTreeMap representation as well, since "match_id" < "status"). -/
def create_game_complete_message (match_id : String) : String :=
  "\x7b\"match_id\":\"" ++ jsonEscapeString match_id ++ "\",\"status\":\"completed\"\x7d"

/-- Observable actions of the sync game runner: each `blocking_send` on the
status channel, and the warning logged when the final send fails. -/
inductive RunnerEffect
  | sendStatus (st : GameStatus)
  | warnSendFailed
  deriving DecidableEq, Repr

/-- The autonomous game loop inside `GamePool::run_game_sync` (game_pool.rs
lines 187-205), fuelled: `none` means the loop was still running after
`fuel` iterations (the sleep between iterations is not modelled). -/
def runGameLoop (E : EngineModel) : Nat → GameMatch → Option GameStatus
  | 0, _ => none
  | fuel + 1, g =>
    match GameMatch.advance E g with
    | (.ok true, g2) => runGameLoop E fuel g2
    | (.ok false, _) => some .Finished
    | (.error e, _) => some (.Error e)

/-- Embedding of `GamePool::run_game_sync` (game_pool.rs lines 170-214).
`recvAlive` tells whether the status-channel receiver still exists when the
final status is sent; the construction-failure send discards its result
(`let _ = ...`) so it produces no warning either way. -/
def run_game_sync (E : EngineModel) (recvAlive : Bool)
    (initResult : Except MahjongFFIError Nat) (fuel : Nat)
    (match_id : String) (controllers : List GameController) :
    Option (List RunnerEffect) :=
  match GameMatch.try_new initResult match_id controllers with
  | .error e => some [.sendStatus (.Error e)]
  | .ok g =>
    match runGameLoop E fuel g with
    | none => none
    | some final_status =>
      some ([.sendStatus final_status] ++ if recvAlive then [] else [.warnSendFailed])

/-- The statuses actually handed to `blocking_send`, in order. -/
def sendsOf : Option (List RunnerEffect) → Option (List GameStatus)
  | none => none
  | some effs => some (effs.filterMap fun e =>
      match e with
      | .sendStatus st => some st
      | .warnSendFailed => none)

/-- Observable actions of the pool's message loop: broker publishes, task
aborts, runner spawns, and the error log emitted when a publish fails. -/
inductive PoolEffect
  | publish (topic : String) (routing_key : String) (payload : String)
  | abortHandle (h : Nat)
  | startRunner (match_id : String) (controllers : List GameController)
  | logPublishError (match_id : String)
  deriving DecidableEq, Repr

/-- State of `GamePool::run`'s loop: the `active_games` HashMap (association
list, keys unique by construction), a counter allocating opaque
`JoinHandle` identities, and whether the loop has exited (`break`). -/
structure PoolState where
  active_games : List (String × Nat)
  nextHandle : Nat
  stopped : Bool
  deriving DecidableEq, Repr

/-- `HashMap::insert` on the association-list representation. -/
def hmInsert (k : String) (v : Nat) (l : List (String × Nat)) : List (String × Nat) :=
  (k, v) :: l.filter fun p => ¬ (p.1 = k)

/-- `HashMap::remove`'s effect on the map (the removed value is found with
`hmGet`). -/
def hmRemove (k : String) (l : List (String × Nat)) : List (String × Nat) :=
  l.filter fun p => ¬ (p.1 = k)

/-- Lookup in the association-list map. -/
def hmGet (k : String) (l : List (String × Nat)) : Option Nat :=
  (l.find? fun p => p.1 = k).map (·.2)

/-- Number of entries under key `k` (≤ 1 is the HashMap invariant). -/
def countKey (k : String) (l : List (String × Nat)) : Nat :=
  (l.filter fun p => p.1 = k).length

/-- One iteration of the `while let` loop in `GamePool::run` (game_pool.rs
lines 69-113).  `pubOk` is the broker oracle for the publish attempted
while handling this message.  A stopped pool (after `break`) receives no
further messages, modelled as an inert step.  `start_game` itself never
fails (its body ends in `Ok(handle)`), so `StartGame` always registers an
entry; `GameComplete`/`GameError` publish via `handle_game_completion` and
then remove the entry regardless of the publish outcome. -/
def GamePool.step (pubOk : Bool) (s : PoolState) (msg : GamePoolMessage) :
    PoolState × List PoolEffect :=
  if s.stopped then (s, [])
  else
    match msg with
    | .StartGame match_id players =>
      let controllers := buildControllers players
      let h := s.nextHandle
      ({ s with active_games := hmInsert match_id h s.active_games, nextHandle := h + 1 },
       [.startRunner match_id controllers])
    | .GameFinished match_id =>
      match hmGet match_id s.active_games with
      | some h => ({ s with active_games := hmRemove match_id s.active_games },
                   [.abortHandle h])
      | none => (s, [])
    | .GameComplete match_id =>
      ({ s with active_games := hmRemove match_id s.active_games },
       [.publish "game.complete" match_id (create_game_complete_message match_id)]
         ++ if pubOk then [] else [.logPublishError match_id])
    | .GameError match_id _error =>
      ({ s with active_games := hmRemove match_id s.active_games },
       [.publish "game.complete" match_id (create_game_complete_message match_id)]
         ++ if pubOk then [] else [.logPublishError match_id])
    | .Shutdown =>
      ({ s with active_games := [], stopped := true },
       s.active_games.map fun p => .abortHandle p.2)

/-- Folding `GamePool.step` over a mailbox message sequence, accumulating
the effect trace. -/
def runPool (pubOk : Bool) (s : PoolState) : List GamePoolMessage → PoolState × List PoolEffect
  | [] => (s, [])
  | m :: ms =>
    let r := GamePool.step pubOk s m
    let rest := runPool pubOk r.1 ms
    (rest.1, r.2 ++ rest.2)

/-- The pool's state when `GamePool::run` enters its loop. -/
def initialPoolState : PoolState :=
  { active_games := [], nextHandle := 0, stopped := false }

/-! ## queue.rs -/

/-- lapin's `ExchangeDeclareOptions`; `Default` leaves every flag `false`. -/
structure ExchangeDeclareOptions where
  passive : Bool := false
  durable : Bool := false
  auto_delete : Bool := false
  internal : Bool := false
  nowait : Bool := false
  deriving DecidableEq, Repr

/-- lapin's `ExchangeKind`, as used at the declare sites. -/
inductive ExchangeKind
  | Topic
  | Direct
  | Fanout
  | Headers
  deriving DecidableEq, Repr

/-- Broker operations attempted during `QueueClient::new`, in call order. -/
inductive BrokerOp
  | connect (url : String)
  | createChannel
  | exchangeDeclare (exchange : String) (kind : ExchangeKind) (options : ExchangeDeclareOptions)
  deriving DecidableEq, Repr

/-- The data `QueueClient` retains (queue.rs `QueueClientInner`, minus the
live connection and channel handles). -/
structure QueueClientModel where
  incoming_topic : String
  outgoing_topic : String
  deriving DecidableEq, Repr

/-- Embedding of `QueueClient::new` (queue.rs lines 27-74).  The four
awaited broker calls are oracles (`connectRes`, `channelRes`, the two
declare results); the function returns the constructed client or the first
wrapped error, together with the trace of broker operations attempted. -/
def QueueClient.new (connectRes channelRes declIncomingRes declOutgoingRes : Except String Unit)
    (cluster_url : String) : Except String QueueClientModel × List BrokerOp :=
  match connectRes with
  | .error e => (.error ("Failed to connect to AMQP cluster: " ++ e), [.connect cluster_url])
  | .ok _ =>
    match channelRes with
    | .error e => (.error ("Failed to create AMQP channel: " ++ e),
                   [.connect cluster_url, .createChannel])
    | .ok _ =>
      let incoming_topic := "game.starting"
      let outgoing_topic := "game.complete"
      let d1 := BrokerOp.exchangeDeclare incoming_topic .Topic {}
      match declIncomingRes with
      | .error e => (.error ("Failed to declare incoming exchange: " ++ e),
                     [.connect cluster_url, .createChannel, d1])
      | .ok _ =>
        let d2 := BrokerOp.exchangeDeclare outgoing_topic .Topic {}
        match declOutgoingRes with
        | .error e => (.error ("Failed to declare outgoing exchange: " ++ e),
                       [.connect cluster_url, .createChannel, d1, d2])
        | .ok _ =>
          (.ok { incoming_topic := incoming_topic, outgoing_topic := outgoing_topic },
           [.connect cluster_url, .createChannel, d1, d2])

/-- Checks that a broker operation is not an exchange declaration with the
durable flag unset; `List.all` of this over a trace states "every declared
exchange is durable". -/
def opDeclaresDurable : BrokerOp → Bool
  | .exchangeDeclare _ _ o => o.durable
  | _ => true

/-- Observable actions of `QueueClient::start_consuming`'s delivery loop:
handler invocations, handler-error logs, ack attempts and ack-error logs.
Payloads are the delivery bytes, modelled as strings. -/
inductive ConsumeEffect
  | handlerInvoked (payload : String)
  | handlerErrorLogged (payload : String) (err : String)
  | ackAttempted (payload : String)
  | ackErrorLogged (payload : String)
  deriving DecidableEq, Repr

/-- The effects produced for one successfully received delivery (queue.rs
lines 132-141): handler call, log on handler error, unconditional ack
attempt, log on ack error. -/
def deliveryEffects (handler : String → Except String Unit) (ackOk : String → Bool)
    (d : String) : List ConsumeEffect :=
  [.handlerInvoked d]
    ++ (match handler d with
        | .ok _ => []
        | .error e => [.handlerErrorLogged d e])
    ++ [.ackAttempted d]
    ++ (if ackOk d then [] else [.ackErrorLogged d])

/-- The `while let Some(delivery_result) = consumer.next()` loop (queue.rs
lines 130-148): each delivery is either received (`Except.ok payload`) or a
transport failure (`Except.error e`), at which the loop returns that error. -/
def consumeDeliveries (handler : String → Except String Unit) (ackOk : String → Bool) :
    List (Except String String) → Except String Unit × List ConsumeEffect
  | [] => (.ok (), [])
  | .ok d :: rest =>
    let r := consumeDeliveries handler ackOk rest
    (r.1, deliveryEffects handler ackOk d ++ r.2)
  | .error e :: _ => (.error e, [])

/-- Embedding of `QueueClient::start_consuming` (queue.rs lines 78-152).
The three awaited setup calls (queue declare, bind, basic_consume) are
oracles; on setup success the delivery loop runs over `stream`. -/
def start_consuming (declareRes bindRes consumeRes : Except String Unit)
    (handler : String → Except String Unit) (ackOk : String → Bool)
    (stream : List (Except String String)) : Except String Unit × List ConsumeEffect :=
  match declareRes with
  | .error e => (.error ("Failed to declare queue: " ++ e), [])
  | .ok _ =>
    match bindRes with
    | .error e => (.error ("Failed to bind queue to exchange: " ++ e), [])
    | .ok _ =>
      match consumeRes with
      | .error e => (.error ("Failed to start consuming: " ++ e), [])
      | .ok _ => consumeDeliveries handler ackOk stream

/-- The payloads successfully received before the stream's first transport
failure (all of them when there is none). -/
def okDeliveries : List (Except String String) → List String
  | [] => []
  | .ok d :: rest => d :: okDeliveries rest
  | .error _ :: _ => []

/-- The stream's first transport failure, if any. -/
def firstStreamError : List (Except String String) → Option String
  | [] => none
  | .ok _ :: rest => firstStreamError rest
  | .error e :: _ => some e

/-- The publish operations within a pool effect trace. -/
def publishesOf (effs : List PoolEffect) : List PoolEffect :=
  effs.filter fun e =>
    match e with
    | .publish _ _ _ => true
    | _ => false

/-- Recognizes the three cleanup/terminal mailbox messages for a given id. -/
def isFinishFor (id : String) : GamePoolMessage → Bool
  | .GameFinished m => m = id
  | .GameComplete m => m = id
  | .GameError m _ => m = id
  | _ => false

/-! ## Helper lemmas -/

lemma countKey_filter_not (k : String) (l : List (String × Nat)) :
    countKey k (l.filter fun p => ¬ (p.1 = k)) = 0 := by
  induction l with
  | nil => rfl
  | cons p rest ih =>
    by_cases hp : p.1 = k
    · have ih2 : countKey k (rest.filter fun p => !decide (p.1 = k)) = 0 := by
        simpa using ih
      simp [List.filter_cons, hp, ih2]
    · simpa [List.filter_cons, hp, countKey] using ih

lemma countKey_hmInsert (k : String) (v : Nat) (l : List (String × Nat)) :
    countKey k (hmInsert k v l) = 1 := by
  have h := countKey_filter_not k l
  simp [countKey] at h
  simp [hmInsert, countKey, List.filter_cons, h]

lemma countKey_hmRemove (k : String) (l : List (String × Nat)) :
    countKey k (hmRemove k l) = 0 :=
  countKey_filter_not k l

lemma countKey_zero_of_hmGet_none (k : String) (l : List (String × Nat))
    (h : hmGet k l = none) : countKey k l = 0 := by
  induction l with
  | nil => rfl
  | cons p rest ih =>
    by_cases hp : p.1 = k
    · simp [hmGet, List.find?_cons, hp] at h
    · have h2 : hmGet k rest = none := by
        simpa [hmGet, List.find?_cons, hp] using h
      simpa [countKey, List.filter_cons, hp] using ih h2

lemma hmRemove_eq_of_hmGet_none (k : String) (l : List (String × Nat))
    (h : hmGet k l = none) : hmRemove k l = l := by
  induction l with
  | nil => rfl
  | cons p rest ih =>
    by_cases hp : p.1 = k
    · simp [hmGet, List.find?_cons, hp] at h
    · have h2 : hmGet k rest = none := by
        simpa [hmGet, List.find?_cons, hp] using h
      simpa [hmRemove, List.filter_cons, hp] using ih h2

lemma runGameLoop_succ_done (E : EngineModel) (fuel : Nat) (g : GameMatch)
    (h : (GameMatch.advance E g).1 = Except.ok false) :
    runGameLoop E (fuel + 1) g = some GameStatus.Finished := by
  rcases hr : GameMatch.advance E g with ⟨r, g2⟩
  rw [hr] at h
  simp only at h
  subst h
  simp [runGameLoop, hr]

lemma runPool_of_stopped (pubOk : Bool) (s : PoolState) (h : s.stopped = true) :
    ∀ msgs : List GamePoolMessage, runPool pubOk s msgs = (s, []) := by
  intro msgs
  induction msgs with
  | nil => rfl
  | cons m ms ih =>
    have hstep : GamePool.step pubOk s m = (s, []) := by
      simp [GamePool.step, h]
    simp only [runPool, hstep, ih]
    simp

lemma consumeDeliveries_eq (handler : String → Except String Unit) (ackOk : String → Bool)
    (stream : List (Except String String)) :
    consumeDeliveries handler ackOk stream =
      ((match firstStreamError stream with
        | some e => Except.error e
        | none => Except.ok ()),
       List.flatMap (okDeliveries stream) (deliveryEffects handler ackOk)) := by
  induction stream with
  | nil => simp [consumeDeliveries, firstStreamError, okDeliveries]
  | cons x rest ih =>
    cases x with
    | ok d => simp [consumeDeliveries, firstStreamError, okDeliveries, ih, List.flatMap_cons]
    | error e => simp [consumeDeliveries, firstStreamError, okDeliveries]

lemma step_finish_countZero (pubOk : Bool) (id : String) (m : GamePoolMessage)
    (s : PoolState) (hm : isFinishFor id m = true) (hs : s.stopped = false) :
    (GamePool.step pubOk s m).1.stopped = false ∧
    countKey id (GamePool.step pubOk s m).1.active_games = 0 := by
  cases m with
  | GameFinished mid =>
    have hid : mid = id := by simpa [isFinishFor] using hm
    subst hid
    cases hg : hmGet mid s.active_games with
    | some h => simp [GamePool.step, hs, hg, countKey_hmRemove]
    | none =>
      refine ⟨by simp [GamePool.step, hs, hg], ?_⟩
      simpa [GamePool.step, hs, hg] using countKey_zero_of_hmGet_none mid s.active_games hg
  | GameComplete mid =>
    have hid : mid = id := by simpa [isFinishFor] using hm
    subst hid
    simp [GamePool.step, hs, countKey_hmRemove]
  | GameError mid err =>
    have hid : mid = id := by simpa [isFinishFor] using hm
    subst hid
    simp [GamePool.step, hs, countKey_hmRemove]
  | StartGame mid players => simp [isFinishFor] at hm
  | Shutdown => simp [isFinishFor] at hm

lemma runPool_finish_all (pubOk : Bool) (id : String) :
    ∀ (msgs : List GamePoolMessage) (s : PoolState),
      (∀ m ∈ msgs, isFinishFor id m = true) → s.stopped = false →
      (runPool pubOk s msgs).1.stopped = false ∧
      (msgs ≠ [] → countKey id (runPool pubOk s msgs).1.active_games = 0) := by
  intro msgs
  induction msgs with
  | nil => exact fun s _ hs => ⟨hs, by simp⟩
  | cons m rest ih =>
    intro s hall hs
    have hm : isFinishFor id m = true := hall m (by simp)
    have hstep := step_finish_countZero pubOk id m s hm hs
    have hrest : ∀ x ∈ rest, isFinishFor id x = true :=
      fun x hx => hall x (by simp [hx])
    rcases rest with _ | ⟨m2, rest2⟩
    · refine ⟨?_, fun _ => ?_⟩
      · simpa [runPool] using hstep.1
      · simpa [runPool] using hstep.2
    · have hcont := ih (GamePool.step pubOk s m).1 hrest hstep.1
      refine ⟨?_, fun _ => ?_⟩
      · simpa [runPool] using hcont.1
      · simpa [runPool] using hcont.2 (by simp)

/-! ## Claim theorems -/

/-- C1: both terminal signals resolve to a successful finish.  If the
engine's `advance` fails with the distinguished `GameEnded` error, or if it
succeeds but the observed snapshot's current state is `GameEnd`, then
`GameMatch::advance` returns `Ok(false)` rather than an error, and the sync
runner loop consequently sends status `Finished`, not `Error`. -/
theorem terminal_detection_equivalence (E : EngineModel) (s s2 : Nat)
    (o : ObservedGameState) (id : String) (cs : List GameController)
    (recvAlive : Bool) (fuel : Nat) (hcs : cs.length = 4)
    (h : E.advance s = Except.error MahjongFFIError.GameEnded ∨
         (E.advance s = Except.ok s2 ∧ E.observe s2 = some o ∧
          o.current_state = StateFunctionType.GameEnd)) :
    (GameMatch.advance E { state := some s, match_id := id }).1 = Except.ok false ∧
    sendsOf (run_game_sync E recvAlive (Except.ok s) (fuel + 1) id cs) =
      some [GameStatus.Finished] := by
  have hadv : (GameMatch.advance E { state := some s, match_id := id }).1 =
      Except.ok false := by
    rcases h with h1 | ⟨h1, h2, h3⟩
    · simp [GameMatch.advance, h1]
    · simp [GameMatch.advance, h1, GameMatch.observe_state, h2, h3]
  refine ⟨hadv, ?_⟩
  have htry : GameMatch.try_new (Except.ok s) id cs =
      Except.ok { state := some s, match_id := id } := by
    simp [GameMatch.try_new, hcs]
  have hloop := runGameLoop_succ_done E fuel { state := some s, match_id := id } hadv
  cases recvAlive <;> simp [run_game_sync, htry, hloop, sendsOf]

/-- C1 witness: a concrete engine whose `advance` immediately reports
`GameEnded`. -/
theorem terminal_detection_equivalence_witness :
    (GameMatch.advance
        { advance := fun _ => Except.error MahjongFFIError.GameEnded,
          observe := fun _ => none }
        { state := some 0, match_id := "m1" }).1 = Except.ok false ∧
    sendsOf (run_game_sync
        { advance := fun _ => Except.error MahjongFFIError.GameEnded,
          observe := fun _ => none }
        true (Except.ok 0) 1 "m1" (buildControllers [])) =
      some [GameStatus.Finished] :=
  terminal_detection_equivalence
    { advance := fun _ => Except.error MahjongFFIError.GameEnded,
      observe := fun _ => none }
    0 0 { current_state := StateFunctionType.GameEnd } "m1" (buildControllers [])
    true 0 (by decide) (Or.inl rfl)

/-- C2: for every participant list of length 0 to 4, the pool builds exactly
4 seat controllers: supplied participants occupy the first seats in order,
every remaining seat is the default filler "AngryDiscardoBot", and the
resulting seat list always satisfies `GameMatch::try_new`'s 4-controller
requirement. -/
theorem seat_padding (players : List String) (h : players.length ≤ 4) :
    (buildControllers players).length = 4 ∧
    (∀ i, i < players.length →
      (buildControllers players).get? i = (players.get? i).map GameController.Embedded) ∧
    (∀ i, players.length ≤ i → i < 4 →
      (buildControllers players).get? i = some (GameController.Embedded "AngryDiscardoBot")) ∧
    (∀ (id : String) (st : Nat),
      GameMatch.try_new (Except.ok st) id (buildControllers players) =
        Except.ok { state := some st, match_id := id }) := by
  refine ⟨by simp [buildControllers], ?_, ?_, ?_⟩
  · intro i hi
    have h4 : i < 4 := lt_of_lt_of_le hi h
    cases hp : players.get? i with
    | none =>
      exact absurd (List.get?_eq_none.mp hp) (Nat.not_le.mpr hi)
    | some p =>
      have hp2 : players[i]? = some p := by
        simpa [List.get?_eq_getElem?] using hp
      simp [buildControllers, List.get?_eq_getElem?, List.getElem?_map,
        List.getElem?_range h4, hp2]
  · intro i hlen h4
    have hp2 : players[i]? = none := by
      simpa [List.get?_eq_getElem?] using List.get?_eq_none.mpr hlen
    simp [buildControllers, List.get?_eq_getElem?, List.getElem?_map,
      List.getElem?_range h4, hp2]
  · intro id st
    simp [GameMatch.try_new, buildControllers]

/-- C2 witness at a two-player list. -/
theorem seat_padding_witness :
    (buildControllers ["alice", "bob"]).length = 4 ∧
    (∀ i, i < (["alice", "bob"] : List String).length →
      (buildControllers ["alice", "bob"]).get? i =
        ((["alice", "bob"] : List String).get? i).map GameController.Embedded) ∧
    (∀ i, (["alice", "bob"] : List String).length ≤ i → i < 4 →
      (buildControllers ["alice", "bob"]).get? i =
        some (GameController.Embedded "AngryDiscardoBot")) ∧
    (∀ (id : String) (st : Nat),
      GameMatch.try_new (Except.ok st) id (buildControllers ["alice", "bob"]) =
        Except.ok { state := some st, match_id := id }) :=
  seat_padding ["alice", "bob"] (by decide)

/-- C9 counterexample: on the construction-failure path with the receiver
already dropped, the runner's trace is exactly the single status send — it
contains no send-failure log (`let _ = status_tx.blocking_send(...)`
discards the result), whereas the same dead-receiver run that reaches the
post-run send does log the failure.  This refutes "in both the
construction-failure and post-run cases, a failed send is logged". -/
theorem runner_send_log_counterexample :
    run_game_sync
        { advance := fun _ => Except.error MahjongFFIError.GameEnded,
          observe := fun _ => none }
        false (Except.ok 0) 0 "m1" [] =
      some [RunnerEffect.sendStatus (GameStatus.Error GameError.notFourControllers)] ∧
    RunnerEffect.warnSendFailed ∉
      [RunnerEffect.sendStatus (GameStatus.Error GameError.notFourControllers)] ∧
    run_game_sync
        { advance := fun _ => Except.error MahjongFFIError.GameEnded,
          observe := fun _ => none }
        false (Except.ok 0) 1 "m1" (buildControllers []) =
      some [RunnerEffect.sendStatus GameStatus.Finished, RunnerEffect.warnSendFailed] :=
  ⟨rfl, by decide, rfl⟩

/-- C9 amended: when engine construction fails inside the sync runner, the
runner sends a single `Error` terminal status through the same status
channel used for mid-run failures, so callers observe one uniform
completion channel; a failed send (receiver dropped) is never escalated in
either case — the statuses sent do not depend on whether the receiver is
alive — but only the post-run send logs its failure: the
construction-failure path discards the send result without logging. -/
theorem runner_uniform_error_channel (E : EngineModel) (recvAlive : Bool)
    (initResult : Except MahjongFFIError Nat) (fuel : Nat) (id : String)
    (cs : List GameController) (e : GameError)
    (h : GameMatch.try_new initResult id cs = Except.error e) :
    run_game_sync E recvAlive initResult fuel id cs =
      some [RunnerEffect.sendStatus (GameStatus.Error e)] ∧
    (∀ (E2 : EngineModel) (ra rb : Bool) (init2 : Except MahjongFFIError Nat)
      (fuel2 : Nat) (id2 : String) (cs2 : List GameController),
      sendsOf (run_game_sync E2 ra init2 fuel2 id2 cs2) =
        sendsOf (run_game_sync E2 rb init2 fuel2 id2 cs2)) ∧
    (∀ (E2 : EngineModel) (init2 : Except MahjongFFIError Nat) (fuel2 : Nat)
      (id2 : String) (cs2 : List GameController) (g : GameMatch) (st : GameStatus),
      GameMatch.try_new init2 id2 cs2 = Except.ok g →
      runGameLoop E2 fuel2 g = some st →
      run_game_sync E2 false init2 fuel2 id2 cs2 =
        some [RunnerEffect.sendStatus st, RunnerEffect.warnSendFailed]) := by
  refine ⟨by simp [run_game_sync, h], ?_, ?_⟩
  · intro E2 ra rb init2 fuel2 id2 cs2
    cases htry : GameMatch.try_new init2 id2 cs2 with
    | error e2 => simp [run_game_sync, htry]
    | ok g =>
      cases hloop : runGameLoop E2 fuel2 g with
      | none => simp [run_game_sync, htry, hloop, sendsOf]
      | some st =>
        cases ra <;> cases rb <;> simp [run_game_sync, htry, hloop, sendsOf]
  · intro E2 init2 fuel2 id2 cs2 g st htry hloop
    simp [run_game_sync, htry, hloop]

/-- C9 witness: an empty controller list makes `try_new` fail before the
game ever runs. -/
theorem runner_uniform_error_channel_witness :
    run_game_sync
        { advance := fun _ => Except.error MahjongFFIError.GameEnded,
          observe := fun _ => none }
        false (Except.ok 0) 0 "m1" [] =
      some [RunnerEffect.sendStatus (GameStatus.Error GameError.notFourControllers)] ∧
    (∀ (E2 : EngineModel) (ra rb : Bool) (init2 : Except MahjongFFIError Nat)
      (fuel2 : Nat) (id2 : String) (cs2 : List GameController),
      sendsOf (run_game_sync E2 ra init2 fuel2 id2 cs2) =
        sendsOf (run_game_sync E2 rb init2 fuel2 id2 cs2)) ∧
    (∀ (E2 : EngineModel) (init2 : Except MahjongFFIError Nat) (fuel2 : Nat)
      (id2 : String) (cs2 : List GameController) (g : GameMatch) (st : GameStatus),
      GameMatch.try_new init2 id2 cs2 = Except.ok g →
      runGameLoop E2 fuel2 g = some st →
      run_game_sync E2 false init2 fuel2 id2 cs2 =
        some [RunnerEffect.sendStatus st, RunnerEffect.warnSendFailed]) :=
  runner_uniform_error_channel
    { advance := fun _ => Except.error MahjongFFIError.GameEnded,
      observe := fun _ => none }
    false (Except.ok 0) 0 "m1" [] GameError.notFourControllers rfl

/-- C3 counterexample: on a fully successful construction, the exchanges are
declared with lapin's default options, whose `durable` flag is `false` —
refuting "declares both topics as durable topic exchanges" at a concrete
input (the construction itself still succeeds). -/
theorem queue_client_new_counterexample :
    (QueueClient.new (Except.ok ()) (Except.ok ()) (Except.ok ()) (Except.ok ())
        "amqp://localhost").1 =
      Except.ok { incoming_topic := "game.starting", outgoing_topic := "game.complete" } ∧
    ((QueueClient.new (Except.ok ()) (Except.ok ()) (Except.ok ()) (Except.ok ())
        "amqp://localhost").2.all opDeclaresDurable) = false := by
  refine ⟨rfl, ?_⟩
  decide

/-- C3 amended: `QueueClient::new` opens one connection and one channel and
declares both well-known topics as topic exchanges with lapin's default
(non-durable) declare options, and any declare failure aborts construction
with an error. -/
theorem queue_client_new_construction (url e : String) (dOut : Except String Unit) :
    QueueClient.new (Except.ok ()) (Except.ok ()) (Except.ok ()) (Except.ok ()) url =
      (Except.ok { incoming_topic := "game.starting", outgoing_topic := "game.complete" },
       [BrokerOp.connect url, BrokerOp.createChannel,
        BrokerOp.exchangeDeclare "game.starting" ExchangeKind.Topic {},
        BrokerOp.exchangeDeclare "game.complete" ExchangeKind.Topic {}]) ∧
    (QueueClient.new (Except.ok ()) (Except.ok ()) (Except.error e) dOut url).1 =
      Except.error ("Failed to declare incoming exchange: " ++ e) ∧
    (QueueClient.new (Except.ok ()) (Except.ok ()) (Except.ok ()) (Except.error e) url).1 =
      Except.error ("Failed to declare outgoing exchange: " ++ e) ∧
    ({} : ExchangeDeclareOptions).durable = false := by
  refine ⟨rfl, rfl, rfl, rfl⟩

/-- C7: in the consume loop, every delivery received before a transport
failure has the handler invoked and the delivery acknowledged regardless of
the handler's outcome, and the call returns an error precisely when the
delivery stream itself yields a transport-level failure. -/
theorem consume_acks_regardless (handler : String → Except String Unit)
    (ackOk : String → Bool) (stream : List (Except String String))
    (dq db dc : Except String Unit)
    (h1 : dq = Except.ok ()) (h2 : db = Except.ok ()) (h3 : dc = Except.ok ()) :
    start_consuming dq db dc handler ackOk stream =
      ((match firstStreamError stream with
        | some e => Except.error e
        | none => Except.ok ()),
       List.flatMap (okDeliveries stream) (deliveryEffects handler ackOk)) ∧
    ((start_consuming dq db dc handler ackOk stream).1 = Except.ok () ↔
      firstStreamError stream = none) := by
  subst h1 h2 h3
  have heq := consumeDeliveries_eq handler ackOk stream
  refine ⟨by simpa [start_consuming] using heq, ?_⟩
  rw [show (start_consuming (Except.ok ()) (Except.ok ()) (Except.ok ())
        handler ackOk stream) = consumeDeliveries handler ackOk stream from rfl, heq]
  cases firstStreamError stream <;> simp

/-- C7 witness: a failing handler, a failing acker, one good delivery and
then a transport failure. -/
theorem consume_acks_regardless_witness :
    start_consuming (Except.ok ()) (Except.ok ()) (Except.ok ())
        (fun _ => Except.error "bad payload") (fun _ => false)
        [Except.ok "a", Except.error "boom"] =
      ((match firstStreamError [Except.ok "a", Except.error "boom"] with
        | some e => Except.error e
        | none => Except.ok ()),
       List.flatMap (okDeliveries [Except.ok "a", Except.error "boom"])
         (deliveryEffects (fun _ => Except.error "bad payload") (fun _ => false))) ∧
    ((start_consuming (Except.ok ()) (Except.ok ()) (Except.ok ())
        (fun _ => Except.error "bad payload") (fun _ => false)
        [Except.ok "a", Except.error "boom"]).1 = Except.ok () ↔
      firstStreamError [Except.ok "a", Except.error "boom"] = none) :=
  consume_acks_regardless (fun _ => Except.error "bad payload") (fun _ => false)
    [Except.ok "a", Except.error "boom"] _ _ _ rfl rfl rfl

/-- C8: processing a terminal message (`GameComplete` or `GameError`)
publishes exactly one job-complete event to the outgoing topic with routing
key equal to the id; both outcomes publish the identical payload, the JSON
encoding of match_id plus status "completed" (shown concretely for "m1"). -/
theorem publish_on_terminal (pubOk : Bool) (s : PoolState) (id err : String)
    (hs : s.stopped = false) :
    publishesOf (GamePool.step pubOk s (GamePoolMessage.GameComplete id)).2 =
      [PoolEffect.publish "game.complete" id (create_game_complete_message id)] ∧
    publishesOf (GamePool.step pubOk s (GamePoolMessage.GameError id err)).2 =
      publishesOf (GamePool.step pubOk s (GamePoolMessage.GameComplete id)).2 ∧
    create_game_complete_message "m1" =
      "\x7b\"match_id\":\"m1\",\"status\":\"completed\"\x7d" := by
  refine ⟨?_, ?_, by decide⟩ <;>
    cases pubOk <;> simp [GamePool.step, hs, publishesOf, List.filter_cons]

/-- C8 witness at the initial pool state. -/
theorem publish_on_terminal_witness :
    publishesOf (GamePool.step true initialPoolState
        (GamePoolMessage.GameComplete "m1")).2 =
      [PoolEffect.publish "game.complete" "m1" (create_game_complete_message "m1")] ∧
    publishesOf (GamePool.step true initialPoolState
        (GamePoolMessage.GameError "m1" "oops")).2 =
      publishesOf (GamePool.step true initialPoolState
        (GamePoolMessage.GameComplete "m1")).2 ∧
    create_game_complete_message "m1" =
      "\x7b\"match_id\":\"m1\",\"status\":\"completed\"\x7d" :=
  publish_on_terminal true initialPoolState "m1" "oops" rfl

/-- C10: a terminal message triggers the publish unconditionally: the effect
trace of handling `GameComplete`/`GameError` is identical for any two
(running) pool states — tracked or untracked id alike — and always contains
the job-complete publish for that id. -/
theorem terminal_publish_unconditional (pubOk : Bool) (s t : PoolState)
    (id err : String) (hs : s.stopped = false) (ht : t.stopped = false) :
    (GamePool.step pubOk s (GamePoolMessage.GameComplete id)).2 =
      (GamePool.step pubOk t (GamePoolMessage.GameComplete id)).2 ∧
    (GamePool.step pubOk s (GamePoolMessage.GameError id err)).2 =
      (GamePool.step pubOk t (GamePoolMessage.GameError id err)).2 ∧
    PoolEffect.publish "game.complete" id (create_game_complete_message id) ∈
      (GamePool.step pubOk s (GamePoolMessage.GameComplete id)).2 ∧
    PoolEffect.publish "game.complete" id (create_game_complete_message id) ∈
      (GamePool.step pubOk s (GamePoolMessage.GameError id err)).2 := by
  refine ⟨?_, ?_, ?_, ?_⟩ <;> cases pubOk <;> simp [GamePool.step, hs, ht]

/-- C10 witness: one state tracking "m1", one not. -/
theorem terminal_publish_unconditional_witness :
    (GamePool.step true initialPoolState (GamePoolMessage.GameComplete "m1")).2 =
      (GamePool.step true { active_games := [("m1", 0)], nextHandle := 1, stopped := false }
        (GamePoolMessage.GameComplete "m1")).2 ∧
    (GamePool.step true initialPoolState (GamePoolMessage.GameError "m1" "oops")).2 =
      (GamePool.step true { active_games := [("m1", 0)], nextHandle := 1, stopped := false }
        (GamePoolMessage.GameError "m1" "oops")).2 ∧
    PoolEffect.publish "game.complete" "m1" (create_game_complete_message "m1") ∈
      (GamePool.step true initialPoolState (GamePoolMessage.GameComplete "m1")).2 ∧
    PoolEffect.publish "game.complete" "m1" (create_game_complete_message "m1") ∈
      (GamePool.step true initialPoolState (GamePoolMessage.GameError "m1" "oops")).2 :=
  terminal_publish_unconditional true initialPoolState
    { active_games := [("m1", 0)], nextHandle := 1, stopped := false } "m1" "oops" rfl rfl

/-- C4: for a `StartGame{id}` followed by any interleaving of
`GameFinished{id}`/`GameComplete{id}`/`GameError{id}`, the active-games
table holds at most one entry for `id` after every prefix, and zero entries
after any nonempty prefix (i.e. from the first cleanup/terminal message for
`id` onwards). -/
theorem at_most_one_active_entry (pubOk : Bool) (id : String) (players : List String)
    (msgs : List GamePoolMessage) (hall : ∀ m ∈ msgs, isFinishFor id m = true)
    (p q : List GamePoolMessage) (hpq : msgs = p ++ q) :
    countKey id (runPool pubOk initialPoolState
      (GamePoolMessage.StartGame id players :: p)).1.active_games ≤ 1 ∧
    (p ≠ [] → countKey id (runPool pubOk initialPoolState
      (GamePoolMessage.StartGame id players :: p)).1.active_games = 0) := by
  have hallp : ∀ m ∈ p, isFinishFor id m = true := fun m hm =>
    hall m (by rw [hpq]; exact List.mem_append_left _ hm)
  have hstart : (GamePool.step pubOk initialPoolState
      (GamePoolMessage.StartGame id players)).1 =
      { active_games := [(id, 0)], nextHandle := 1, stopped := false } := by
    simp [GamePool.step, initialPoolState, hmInsert]
  have hrw : (runPool pubOk initialPoolState
      (GamePoolMessage.StartGame id players :: p)).1 =
      (runPool pubOk { active_games := [(id, 0)], nextHandle := 1, stopped := false } p).1 := by
    simp only [runPool]
    rw [hstart]
  have hres := runPool_finish_all pubOk id p
    { active_games := [(id, 0)], nextHandle := 1, stopped := false } hallp rfl
  rw [hrw]
  refine ⟨?_, hres.2⟩
  rcases p with _ | ⟨m, rest⟩
  · simp [runPool, countKey]
  · have h0 := hres.2 (by simp)
    omega

/-- C4 witness: a start followed by a terminal and a late external finish. -/
theorem at_most_one_active_entry_witness :
    (∀ m ∈ [GamePoolMessage.GameComplete "m1", GamePoolMessage.GameFinished "m1"],
      isFinishFor "m1" m = true) ∧
    (countKey "m1" (runPool true initialPoolState
      (GamePoolMessage.StartGame "m1" ["alice"] ::
        [GamePoolMessage.GameComplete "m1"])).1.active_games ≤ 1 ∧
    ([GamePoolMessage.GameComplete "m1"] ≠ ([] : List GamePoolMessage) →
      countKey "m1" (runPool true initialPoolState
        (GamePoolMessage.StartGame "m1" ["alice"] ::
          [GamePoolMessage.GameComplete "m1"])).1.active_games = 0)) :=
  ⟨by decide,
   at_most_one_active_entry true "m1" ["alice"]
     [GamePoolMessage.GameComplete "m1", GamePoolMessage.GameFinished "m1"]
     (by decide)
     [GamePoolMessage.GameComplete "m1"] [GamePoolMessage.GameFinished "m1"] rfl⟩

/-- C5 counterexample: with "m1" absent from the table, processing
`GameComplete{"m1"}` still emits a publish effect, so it is not free of
observable effects. -/
theorem untracked_cleanup_counterexample :
    hmGet "m1" initialPoolState.active_games = none ∧
    (GamePool.step true initialPoolState (GamePoolMessage.GameComplete "m1")).2 ≠ [] := by
  refine ⟨rfl, ?_⟩
  decide

/-- C5 amended: for an id absent from the table, `GameFinished` is a full
no-op (state and effects), while `GameComplete`/`GameError` leave the table
and state unchanged and return no error, but still publish a job-complete
event for the id. -/
theorem untracked_cleanup_amended (pubOk : Bool) (s : PoolState) (id err : String)
    (hs : s.stopped = false) (h : hmGet id s.active_games = none) :
    GamePool.step pubOk s (GamePoolMessage.GameFinished id) = (s, []) ∧
    (GamePool.step pubOk s (GamePoolMessage.GameComplete id)).1 = s ∧
    (GamePool.step pubOk s (GamePoolMessage.GameError id err)).1 = s ∧
    publishesOf (GamePool.step pubOk s (GamePoolMessage.GameComplete id)).2 =
      [PoolEffect.publish "game.complete" id (create_game_complete_message id)] ∧
    publishesOf (GamePool.step pubOk s (GamePoolMessage.GameError id err)).2 =
      [PoolEffect.publish "game.complete" id (create_game_complete_message id)] := by
  have hrem := hmRemove_eq_of_hmGet_none id s.active_games h
  obtain ⟨ag, nh, st⟩ := s
  simp only at hs
  subst hs
  refine ⟨by simp [GamePool.step, h], ?_, ?_, ?_, ?_⟩ <;>
    cases pubOk <;> simp [GamePool.step, hrem, publishesOf, List.filter_cons]

/-- C5 amended witness at a state tracking a different id. -/
theorem untracked_cleanup_amended_witness :
    GamePool.step true { active_games := [("m2", 5)], nextHandle := 6, stopped := false }
        (GamePoolMessage.GameFinished "m1") =
      ({ active_games := [("m2", 5)], nextHandle := 6, stopped := false }, []) ∧
    (GamePool.step true { active_games := [("m2", 5)], nextHandle := 6, stopped := false }
        (GamePoolMessage.GameComplete "m1")).1 =
      { active_games := [("m2", 5)], nextHandle := 6, stopped := false } ∧
    (GamePool.step true { active_games := [("m2", 5)], nextHandle := 6, stopped := false }
        (GamePoolMessage.GameError "m1" "oops")).1 =
      { active_games := [("m2", 5)], nextHandle := 6, stopped := false } ∧
    publishesOf (GamePool.step true
        { active_games := [("m2", 5)], nextHandle := 6, stopped := false }
        (GamePoolMessage.GameComplete "m1")).2 =
      [PoolEffect.publish "game.complete" "m1" (create_game_complete_message "m1")] ∧
    publishesOf (GamePool.step true
        { active_games := [("m2", 5)], nextHandle := 6, stopped := false }
        (GamePoolMessage.GameError "m1" "oops")).2 =
      [PoolEffect.publish "game.complete" "m1" (create_game_complete_message "m1")] :=
  untracked_cleanup_amended true
    { active_games := [("m2", 5)], nextHandle := 6, stopped := false }
    "m1" "oops" rfl (by decide)

/-- C6: processing `Shutdown` aborts every tracked handle, empties the
active-games table, marks the loop stopped, and the loop processes no
further mailbox message afterwards. -/
theorem shutdown_drains (pubOk : Bool) (s : PoolState) (hs : s.stopped = false)
    (rest : List GamePoolMessage) :
    (GamePool.step pubOk s GamePoolMessage.Shutdown).1.active_games = [] ∧
    (GamePool.step pubOk s GamePoolMessage.Shutdown).1.stopped = true ∧
    (∀ pr ∈ s.active_games,
      PoolEffect.abortHandle pr.2 ∈ (GamePool.step pubOk s GamePoolMessage.Shutdown).2) ∧
    runPool pubOk (GamePool.step pubOk s GamePoolMessage.Shutdown).1 rest =
      ((GamePool.step pubOk s GamePoolMessage.Shutdown).1, []) := by
  refine ⟨by simp [GamePool.step, hs], by simp [GamePool.step, hs], ?_, ?_⟩
  · intro pr hpr
    simp only [GamePool.step, hs]
    simp only [Bool.false_eq_true, if_false]
    exact List.mem_map_of_mem _ hpr
  · exact runPool_of_stopped pubOk _ (by simp [GamePool.step, hs]) rest

/-- C6 witness: a pool tracking one game, with a pending message after
shutdown. -/
theorem shutdown_drains_witness :
    (GamePool.step true { active_games := [("m1", 7)], nextHandle := 8, stopped := false }
        GamePoolMessage.Shutdown).1.active_games = [] ∧
    (GamePool.step true { active_games := [("m1", 7)], nextHandle := 8, stopped := false }
        GamePoolMessage.Shutdown).1.stopped = true ∧
    (∀ pr ∈ [(("m1" : String), 7)],
      PoolEffect.abortHandle pr.2 ∈
        (GamePool.step true { active_games := [("m1", 7)], nextHandle := 8, stopped := false }
          GamePoolMessage.Shutdown).2) ∧
    runPool true (GamePool.step true
        { active_games := [("m1", 7)], nextHandle := 8, stopped := false }
        GamePoolMessage.Shutdown).1 [GamePoolMessage.StartGame "m2" []] =
      ((GamePool.step true { active_games := [("m1", 7)], nextHandle := 8, stopped := false }
        GamePoolMessage.Shutdown).1, []) :=
  shutdown_drains true { active_games := [("m1", 7)], nextHandle := 8, stopped := false }
    rfl [GamePoolMessage.StartGame "m2" []]

end SuperGametable
